import Mathlib

/-!
Verification of the stage-orchestration core of the sales-assistant chat
backend.  The definitions below are a shallow embedding of
`src/graph/main_graph.py` (class `MainGraph`, Responses-API revision with
the PostgreSQL checkpointer) together with the service boundary in
`src/services/agent_service.py`.  Conversational agents and the JSON
decoder of the standard library are external collaborators; they enter
the model as oracles (`AgentBehavior`, the `loads` parameter), and the
theorems quantify over them.
-/

/-! ## Python string primitives used by the orchestrator -/

/-- Whitespace characters stripped by Python `str.strip()` (ASCII range). -/
def isPyWhitespace (c : Char) : Bool :=
  c = ' ' ∨ c = '\t' ∨ c = '\n' ∨ c = '\r' ∨ c = '\x0b' ∨ c = '\x0c'

/-- Python `str.strip()`. -/
def pyStrip (s : String) : String :=
  String.mk (((s.data.dropWhile isPyWhitespace).reverse.dropWhile isPyWhitespace).reverse)

/-- Python `str.lower()` restricted to the alphabets the program uses:
ASCII letters and the Cyrillic block (`А`-`Я` and `Ё`-like letters). -/
def pyCharLower (c : Char) : Char :=
  if 'A' ≤ c ∧ c ≤ 'Z' then Char.ofNat (c.toNat + 32)
  else if 0x410 ≤ c.toNat ∧ c.toNat ≤ 0x42F then Char.ofNat (c.toNat + 0x20)
  else if 0x400 ≤ c.toNat ∧ c.toNat ≤ 0x40F then Char.ofNat (c.toNat + 0x50)
  else c

/-- Python `str.lower()` on a whole string. -/
def pyLower (s : String) : String := String.mk (s.data.map pyCharLower)

/-- Python `str.startswith(p)`. -/
def pyStartsWith (s p : String) : Bool := p.data.isPrefixOf s.data

/-- Python `str.endswith(p)`. -/
def pyEndsWith (s p : String) : Bool := p.data.isSuffixOf s.data

/-- Helper for splitting a character list at newline characters. -/
def pySplitAux : List Char → List (List Char)
  | [] => [[]]
  | ch :: rest =>
    match pySplitAux rest with
    | [] => [[ch]]
    | g :: gs => if ch = '\n' then [] :: g :: gs else (ch :: g) :: gs

/-- Python `str.split("\n")`. -/
def pySplitNewline (s : String) : List String := (pySplitAux s.data).map String.mk

/-- Python `"\n".join(parts)`. -/
def pyJoinNewline (ls : List String) : String :=
  String.mk (List.intercalate ['\n'] (ls.map String.data))

/-- Python `text[:-n]` (drop the last `n` characters; empty when shorter). -/
def pyDropRight (s : String) (n : Nat) : String :=
  String.mk (s.data.take (s.data.length - n))

/-- Python `str.find(ch)`, with `None` standing for `-1`. -/
def pyFindChar (s : String) (c : Char) : Option Nat :=
  s.data.findIdx? (fun d => d = c)

/-- Python `str.rfind(ch)`, with `None` standing for `-1`. -/
def pyRFindChar (s : String) (c : Char) : Option Nat :=
  match s.data.reverse.findIdx? (fun d => d = c) with
  | some k => some (s.data.length - 1 - k)
  | none => none

/-- Python slicing `text[a:b]` on character indices. -/
def pySlice (s : String) (a b : Nat) : String :=
  String.mk ((s.data.drop a).take (b - a))

/-! ## Data model -/

/-- One stored chat message, the shape produced by the orchestrator
(`role`, `content`, optional `tool_call_id`), as consumed by
`messages_to_history` in `src/graph/utils.py`. -/
structure Msg where
  role : String
  content : String
  tool_call_id : Option String
deriving DecidableEq, Repr

/-- One entry of the history format handed to an agent
(`messages_to_history` output). -/
structure HistMsg where
  role : String
  content : String
  tool_call_id : Option String
deriving DecidableEq, Repr

/-- One entry of an agent result's `tool_calls` list; only the `name`
field is consulted by the graph. -/
structure ToolCall where
  name : String
deriving DecidableEq, Repr

/-- The `_call_manager_result` payload an agent exposes after the
CallManager tool ran.  `none` in a field models an absent dictionary key. -/
structure EscalationResult where
  user_message : Option String
  manager_alert : Option String
deriving DecidableEq, Repr

/-- The dictionary returned by `agent.run(message, history, chat_id)`.
`escalation` models `agent._call_manager_result` (with `none` for the
absent or falsy value). -/
structure AgentResult where
  messages : List Msg
  tool_calls : List ToolCall
  call_manager : Bool
  reply : String
  manager_alert : Option String
  escalation : Option EscalationResult
deriving DecidableEq, Repr

/-- A parsed demo configuration: the dictionary decoded from the
demo-setup agent's JSON answer, as a key-value list.  The graph only
reads keys and passes the record around whole, so string values suffice. -/
abbrev Config := List (String × String)

/-- Modelled from the spec: the channel declarations of
`src/graph/conversation_state.py` are absent from the sources; the field
list follows the spec's Session State description and every access the
graph code performs, and node outputs are merged with dictionary-update
semantics. -/
structure ConversationState where
  message : String
  chat_id : Option String
  stage : Option String
  messages : List Msg
  admin_messages : List Msg
  demo_messages : List Msg
  answer : String
  manager_alert : Option String
  agent_name : String
  used_tools : List String
  tool_results : List ToolCall
  demo_config : Option Config
  extracted_info : Option String
deriving DecidableEq, Repr

/-- A record of one agent invocation performed during a turn: which agent
ran and which history argument it received (`none` models Python `None`). -/
inductive Dispatch where
  | admin (history : Option (List HistMsg))
  | demoSetup (history : Option (List HistMsg))
  | demoConfigured (config : Config) (history : Option (List HistMsg))
  | demoUnconfigured (history : Option (List HistMsg))
deriving DecidableEq, Repr

/-- The external conversational agents, one oracle result per agent that
can run in a single turn; `Except.error` models the agent call raising. -/
structure AgentBehavior where
  admin_result : Except String AgentResult
  demo_setup_result : Except String AgentResult
  demo_result : Except String AgentResult

/-! ## History conversion (`src/graph/utils.py`) -/

/-- One step of `messages_to_history`: keep `role` and `content`, and keep
`tool_call_id` only for tool messages with a truthy id. -/
def msg_to_hist (m : Msg) : HistMsg :=
  { role := m.role, content := m.content,
    tool_call_id :=
      match m.tool_call_id with
      | some t => if m.role = "tool" ∧ t ≠ "" then some t else none
      | none => none }

/-- `messages_to_history` from `src/graph/utils.py`. -/
def messages_to_history (ms : List Msg) : List HistMsg := ms.map msg_to_hist

/-- The pattern `messages_to_history(xs) if xs else None` used by every
handler before dispatching an agent. -/
def opt_history (ms : List Msg) : Option (List HistMsg) :=
  if ms.isEmpty then none else some (messages_to_history ms)

/-! ## Constants of the graph -/

/-- The `valid_stages` list of `_route_after_detect`. -/
def valid_stages : List String := ["admin", "demo", "demo_setup"]

/-- The demo-mode marker prepended in `_handle_demo`. -/
def demoMarker : String := "[Демонстрация] "

/-- The `required_fields` list validated in `_handle_demo`. -/
def required_fields : List String :=
  ["niche", "company_name", "persona_instruction", "welcome_message"]

/-- `missing_fields` as computed in `_handle_demo`. -/
def missing_fields (c : Config) : List String :=
  required_fields.filter (fun f => ¬ (c.map Prod.fst).contains f)

/-- Python truthiness of an optional configuration dictionary. -/
def pyTruthyConfig : Option Config → Bool
  | none => false
  | some c => !c.isEmpty

/-- The system message `_handle_admin` appends after a handled `стоп`. -/
def stop_system_message : Msg :=
  { role := "system",
    content := "Демонстрация проведена. Клиент завершил демонстрацию командой 'стоп'.",
    tool_call_id := none }

/-! ## JSON extraction (`MainGraph._parse_json_from_response`) -/

/-- `_parse_json_from_response`: strip, remove a markdown code fence,
try a direct decode, then retry on the first-`\x7b`-to-last-`\x7d` slice.
`loads` is the external `json.loads`, returning `none` where Python
raises `JSONDecodeError`. -/
def parse_json_from_response (loads : String → Option Config)
    (response_text : String) : Option Config :=
  if pyStrip response_text = "" then none
  else
    let t0 := pyStrip response_text
    let t1 :=
      if pyStartsWith t0 "```" then
        let lines := pySplitNewline t0
        let ta := if lines.length > 1 then pyJoinNewline (lines.drop 1) else t0
        if pyEndsWith ta "```" then pyStrip (pyDropRight ta 3) else ta
      else t0
    match loads t1 with
    | some j => some j
    | none =>
      match pyFindChar t1 '{', pyRFindChar t1 '}' with
      | some si, some ei => if si < ei then loads (pySlice t1 si (ei + 1)) else none
      | _, _ => none

/-! ## Graph nodes and routing (`MainGraph`) -/

/-- `_detect_stage`, with the LangGraph merge of its partial return
already applied: only the `stage` channel is written. -/
def detect_stage (s : ConversationState) : ConversationState :=
  if s.stage = some "demo" ∧ pyLower (pyStrip s.message) = "стоп" then
    { s with stage := some "admin" }
  else
    match s.stage with
    | some st => if st ≠ "" then { s with stage := some st } else { s with stage := some "admin" }
    | none => { s with stage := some "admin" }

/-- `_route_after_detect`. -/
def route_after_detect (s : ConversationState) : String :=
  let stage := s.stage.getD "admin"
  if stage ∈ valid_stages then stage else "admin"

/-- `_route_after_admin`. -/
def route_after_admin (s : ConversationState) : String :=
  if s.used_tools.contains "SwitchToDemoTool" then "demo" else "end"

/-- `_process_agent_result`: store the agent's messages into the history
selected by the agent name, handle the CallManager escalation, and copy
every other field of the incoming state. -/
def process_agent_result (result : AgentResult) (s : ConversationState)
    (agent_name : String) : ConversationState :=
  let new_messages := result.messages
  let tool_results := result.tool_calls
  let used_tools := tool_results.map ToolCall.name
  let base :=
    if agent_name = "DemoSetupAgent" then { s with messages := new_messages }
    else if agent_name = "AdminAgent" then { s with admin_messages := new_messages }
    else if agent_name = "DemoAgent" then { s with demo_messages := new_messages }
    else s
  if result.call_manager then
    let esc_answer :=
      match result.escalation with
      | some e => e.user_message.getD result.reply
      | none => result.reply
    let esc_alert :=
      match result.escalation with
      | some e => match e.manager_alert with
        | some m => some m
        | none => result.manager_alert
      | none => result.manager_alert
    { base with
        answer := esc_answer
        manager_alert := esc_alert
        agent_name := agent_name
        used_tools := used_tools
        tool_results := tool_results }
  else
    { base with
        answer := result.reply
        agent_name := agent_name
        used_tools := used_tools
        tool_results := tool_results }

/-- `_handle_admin`: dispatch the admin agent on the isolated
`admin_messages` history, then append the demo-finished system message
when the turn is a handled `стоп`. -/
def handle_admin (beh : AgentBehavior) (s : ConversationState) :
    Except String (ConversationState × List Dispatch) :=
  match beh.admin_result with
  | .error e => .error e
  | .ok ar =>
    let result := process_agent_result ar s "AdminAgent"
    let am :=
      if pyLower (pyStrip s.message) = "стоп" ∧ pyTruthyConfig s.demo_config then
        result.admin_messages ++ [stop_system_message]
      else result.admin_messages
    .ok ({ result with admin_messages := am }, [Dispatch.admin (opt_history s.admin_messages)])

/-- The demo-reply decoration of `_handle_demo`: prepend the marker to a
truthy answer that does not already carry it. -/
def decorate_demo_answer (a : String) : String :=
  if a = "" then a
  else if pyStartsWith a demoMarker then a
  else demoMarker ++ a

/-- The fallback tail of `_handle_demo`: dispatch the unconfigured demo
agent on the isolated demo history and pin the stage, returning before
any decoration or configuration write. -/
def demo_fallback (beh : AgentBehavior) (s : ConversationState)
    (log : List Dispatch) : Except String (ConversationState × List Dispatch) :=
  match beh.demo_result with
  | .error e => .error e
  | .ok ar =>
    let result := process_agent_result ar s "DemoAgent"
    .ok ({ result with stage := some "demo" },
      log ++ [Dispatch.demoUnconfigured (opt_history s.demo_messages)])

/-- The main tail of `_handle_demo`: dispatch the configured demo agent,
decorate the answer, and write back stage and configuration. -/
def demo_main (beh : AgentBehavior) (s : ConversationState) (c : Config)
    (log : List Dispatch) : Except String (ConversationState × List Dispatch) :=
  match beh.demo_result with
  | .error e => .error e
  | .ok ar =>
    let result := process_agent_result ar s "DemoAgent"
    .ok ({ result with
            answer := decorate_demo_answer result.answer
            stage := some "demo"
            demo_config := some c },
      log ++ [Dispatch.demoConfigured c (opt_history s.demo_messages)])

/-- The configuration-derivation branch of `_handle_demo`: run the
demo-setup agent on the full shared history, parse its reply, validate
the required fields, and fall back on any failure. -/
def demo_setup_path (beh : AgentBehavior) (loads : String → Option Config)
    (s : ConversationState) : Except String (ConversationState × List Dispatch) :=
  match beh.demo_setup_result with
  | .error e => .error e
  | .ok sr =>
    let setup_h := opt_history s.messages
    match parse_json_from_response loads sr.reply with
    | some c =>
      if c.isEmpty then demo_fallback beh s [Dispatch.demoSetup setup_h]
      else if missing_fields c = [] then demo_main beh s c [Dispatch.demoSetup setup_h]
      else demo_fallback beh s [Dispatch.demoSetup setup_h]
    | none => demo_fallback beh s [Dispatch.demoSetup setup_h]

/-- `_handle_demo`: reuse a truthy stored configuration, otherwise derive
one through the demo-setup sub-protocol. -/
def handle_demo (beh : AgentBehavior) (loads : String → Option Config)
    (s : ConversationState) : Except String (ConversationState × List Dispatch) :=
  if pyTruthyConfig s.demo_config then demo_main beh s (s.demo_config.getD []) []
  else demo_setup_path beh loads s

/-- `_handle_demo_setup`: dispatch the demo-setup agent on the shared
history and pin the stage. -/
def handle_demo_setup (beh : AgentBehavior) (s : ConversationState) :
    Except String (ConversationState × List Dispatch) :=
  match beh.demo_setup_result with
  | .error e => .error e
  | .ok ar =>
    .ok ({ process_agent_result ar s "DemoSetupAgent" with stage := some "demo_setup" },
      [Dispatch.demoSetup (opt_history s.messages)])

/-- One full execution of the compiled graph for one inbound message:
`detect_stage`, conditional routing, the stage handler, and the
post-admin re-dispatch to demo.  The second component records every
agent invocation of the turn in order. -/
def runTurn (beh : AgentBehavior) (loads : String → Option Config)
    (s0 : ConversationState) : Except String (ConversationState × List Dispatch) :=
  let s1 := detect_stage s0
  let route := route_after_detect s1
  if route = "demo" then handle_demo beh loads s1
  else if route = "demo_setup" then handle_demo_setup beh s1
  else
    match handle_admin beh s1 with
    | .error e => .error e
    | .ok (s2, d2) =>
      if route_after_admin s2 = "demo" then
        match handle_demo beh loads s2 with
        | .error e => .error e
        | .ok (s3, d3) => .ok (s3, d2 ++ d3)
      else .ok (s2, d2)

/-! ## Service boundary (`AgentService.send_to_agent_langgraph`) -/

/-- The fixed apology of the boundary `except` handler. -/
def apology_message : String :=
  "Извините, произошла ошибка при обработке вашего сообщения. Пожалуйста, попробуйте еще раз."

/-- What the service hands back to the transport layer. -/
structure ServiceReply where
  user_message : String
  manager_alert : Option String
deriving DecidableEq, Repr

/-- `send_to_agent_langgraph`: run the graph on the restored state and
return its answer and alert, persisting the final state; any exception is
caught and degrades to the fixed apology with the store untouched.  The
external response formatter is modelled as the identity. -/
def send_to_agent_langgraph (beh : AgentBehavior) (loads : String → Option Config)
    (stored : Option ConversationState) (input : ConversationState) :
    ServiceReply × Option ConversationState :=
  match runTurn beh loads input with
  | .ok (final, _) =>
    ({ user_message := final.answer, manager_alert := final.manager_alert }, some final)
  | .error _ => ({ user_message := apology_message, manager_alert := none }, stored)

/-! ## Result projections used by the theorems -/

/-- Dispatch log of a completed turn. -/
def turn_dispatches : Except String (ConversationState × List Dispatch) → Option (List Dispatch)
  | .ok p => some p.2
  | .error _ => none

/-- Answer of a completed turn. -/
def turn_answer : Except String (ConversationState × List Dispatch) → Option String
  | .ok p => some p.1.answer
  | .error _ => none

/-- Stage stored by a completed turn. -/
def turn_stage : Except String (ConversationState × List Dispatch) → Option (Option String)
  | .ok p => some p.1.stage
  | .error _ => none

/-- Final state of a completed turn. -/
def turn_state : Except String (ConversationState × List Dispatch) → Option ConversationState
  | .ok p => some p.1
  | .error _ => none

/-! ## Shared concrete fixtures -/

/-- An empty session state used as the base of concrete scenarios. -/
def baseState : ConversationState :=
  { message := "", chat_id := some "42", stage := none, messages := [],
    admin_messages := [], demo_messages := [], answer := "", manager_alert := none,
    agent_name := "", used_tools := [], tool_results := [], demo_config := none,
    extracted_info := none }

/-- A neutral agent result used as the base of concrete scenarios. -/
def okResult : AgentResult :=
  { messages := [], tool_calls := [], call_manager := false, reply := "",
    manager_alert := none, escalation := none }

/-- A JSON decoder that fails on every input. -/
def loadsNone : String → Option Config := fun _ => none


/-! ## Evaluation lemmas for the handlers -/

lemma process_agent_result_stage (ar : AgentResult) (s : ConversationState) (n : String) :
    (process_agent_result ar s n).stage = s.stage := by
  unfold process_agent_result
  dsimp only
  split <;> (repeat' split) <;> rfl

lemma process_agent_result_demo_config (ar : AgentResult) (s : ConversationState) (n : String) :
    (process_agent_result ar s n).demo_config = s.demo_config := by
  unfold process_agent_result
  dsimp only
  split <;> (repeat' split) <;> rfl

lemma process_agent_result_message (ar : AgentResult) (s : ConversationState) (n : String) :
    (process_agent_result ar s n).message = s.message := by
  unfold process_agent_result
  dsimp only
  split <;> (repeat' split) <;> rfl

lemma process_agent_result_used_tools (ar : AgentResult) (s : ConversationState) (n : String) :
    (process_agent_result ar s n).used_tools = ar.tool_calls.map ToolCall.name := by
  unfold process_agent_result
  dsimp only
  split <;> (repeat' split) <;> rfl

lemma process_agent_result_answer (ar : AgentResult) (s : ConversationState) (n : String)
    (h : ar.call_manager = false) :
    (process_agent_result ar s n).answer = ar.reply := by
  unfold process_agent_result
  dsimp only
  rw [h]
  rfl

lemma handle_admin_eq (beh : AgentBehavior) (s : ConversationState) (ar : AgentResult)
    (har : beh.admin_result = .ok ar) :
    handle_admin beh s = .ok
      ({ process_agent_result ar s "AdminAgent" with
          admin_messages :=
            if pyLower (pyStrip s.message) = "стоп" ∧ pyTruthyConfig s.demo_config then
              (process_agent_result ar s "AdminAgent").admin_messages ++ [stop_system_message]
            else (process_agent_result ar s "AdminAgent").admin_messages },
        [Dispatch.admin (opt_history s.admin_messages)]) := by
  unfold handle_admin
  rw [har]

lemma demo_main_eq (beh : AgentBehavior) (s : ConversationState) (c : Config)
    (log : List Dispatch) (ar : AgentResult) (hdr : beh.demo_result = .ok ar) :
    demo_main beh s c log = .ok
      ({ process_agent_result ar s "DemoAgent" with
          answer := decorate_demo_answer (process_agent_result ar s "DemoAgent").answer
          stage := some "demo"
          demo_config := some c },
        log ++ [Dispatch.demoConfigured c (opt_history s.demo_messages)]) := by
  unfold demo_main
  rw [hdr]

lemma demo_fallback_eq (beh : AgentBehavior) (s : ConversationState)
    (log : List Dispatch) (ar : AgentResult) (hdr : beh.demo_result = .ok ar) :
    demo_fallback beh s log = .ok
      ({ process_agent_result ar s "DemoAgent" with stage := some "demo" },
        log ++ [Dispatch.demoUnconfigured (opt_history s.demo_messages)]) := by
  unfold demo_fallback
  rw [hdr]

lemma handle_demo_setup_eq (beh : AgentBehavior) (s : ConversationState) (ar : AgentResult)
    (hsr : beh.demo_setup_result = .ok ar) :
    handle_demo_setup beh s = .ok
      ({ process_agent_result ar s "DemoSetupAgent" with stage := some "demo_setup" },
        [Dispatch.demoSetup (opt_history s.messages)]) := by
  unfold handle_demo_setup
  rw [hsr]

lemma handle_demo_configured (beh : AgentBehavior) (loads : String → Option Config)
    (s : ConversationState) (c : Config)
    (hcfg : s.demo_config = some c) (hc : c.isEmpty = false) :
    handle_demo beh loads s = demo_main beh s c [] := by
  unfold handle_demo
  rw [hcfg]
  simp [pyTruthyConfig, hc]

lemma route_after_detect_of_stage (s : ConversationState) (st : String)
    (h : s.stage = some st) (hv : st ∈ valid_stages) :
    route_after_detect s = st := by
  unfold route_after_detect
  rw [h]
  simp [hv]

lemma detect_stage_demo_stop (s : ConversationState)
    (hstage : s.stage = some "demo") (hstop : pyLower (pyStrip s.message) = "стоп") :
    detect_stage s = { s with stage := some "admin" } := by
  unfold detect_stage
  rw [if_pos ⟨hstage, hstop⟩]

lemma detect_stage_keep (s : ConversationState) (st : String)
    (h : s.stage = some st) (hne : st ≠ "")
    (hnd : ¬(st = "demo" ∧ pyLower (pyStrip s.message) = "стоп")) :
    detect_stage s = { s with stage := some st } := by
  unfold detect_stage
  have hcond : ¬(s.stage = some "demo" ∧ pyLower (pyStrip s.message) = "стоп") := by
    rintro ⟨h1, h2⟩
    rw [h] at h1
    exact hnd ⟨Option.some.injEq _ _ ▸ h1, h2⟩
  rw [if_neg hcond, h]
  simp [hne]

lemma process_agent_result_hist_demo_setup (ar : AgentResult) (s : ConversationState) :
    (process_agent_result ar s "DemoSetupAgent").messages = ar.messages ∧
    (process_agent_result ar s "DemoSetupAgent").admin_messages = s.admin_messages ∧
    (process_agent_result ar s "DemoSetupAgent").demo_messages = s.demo_messages := by
  unfold process_agent_result
  dsimp only
  split <;> exact ⟨rfl, rfl, rfl⟩

lemma process_agent_result_hist_admin (ar : AgentResult) (s : ConversationState) :
    (process_agent_result ar s "AdminAgent").messages = s.messages ∧
    (process_agent_result ar s "AdminAgent").admin_messages = ar.messages ∧
    (process_agent_result ar s "AdminAgent").demo_messages = s.demo_messages := by
  unfold process_agent_result
  dsimp only
  split <;> exact ⟨rfl, rfl, rfl⟩

lemma process_agent_result_hist_demo (ar : AgentResult) (s : ConversationState) :
    (process_agent_result ar s "DemoAgent").messages = s.messages ∧
    (process_agent_result ar s "DemoAgent").admin_messages = s.admin_messages ∧
    (process_agent_result ar s "DemoAgent").demo_messages = ar.messages := by
  unfold process_agent_result
  dsimp only
  split <;> exact ⟨rfl, rfl, rfl⟩

lemma process_agent_result_hist_other (ar : AgentResult) (s : ConversationState) (n : String)
    (h1 : n ≠ "DemoSetupAgent") (h2 : n ≠ "AdminAgent") (h3 : n ≠ "DemoAgent") :
    (process_agent_result ar s n).messages = s.messages ∧
    (process_agent_result ar s n).admin_messages = s.admin_messages ∧
    (process_agent_result ar s n).demo_messages = s.demo_messages := by
  unfold process_agent_result
  dsimp only
  rw [if_neg h1, if_neg h2, if_neg h3]
  split <;> exact ⟨rfl, rfl, rfl⟩

lemma process_agent_result_chat_id (ar : AgentResult) (s : ConversationState) (n : String) :
    (process_agent_result ar s n).chat_id = s.chat_id := by
  unfold process_agent_result
  dsimp only
  split <;> (repeat' split) <;> rfl

lemma process_agent_result_extracted_info (ar : AgentResult) (s : ConversationState) (n : String) :
    (process_agent_result ar s n).extracted_info = s.extracted_info := by
  unfold process_agent_result
  dsimp only
  split <;> (repeat' split) <;> rfl

lemma process_agent_result_agent_name (ar : AgentResult) (s : ConversationState) (n : String) :
    (process_agent_result ar s n).agent_name = n := by
  unfold process_agent_result
  dsimp only
  split <;> (repeat' split) <;> rfl

lemma process_agent_result_tool_results (ar : AgentResult) (s : ConversationState) (n : String) :
    (process_agent_result ar s n).tool_results = ar.tool_calls := by
  unfold process_agent_result
  dsimp only
  split <;> (repeat' split) <;> rfl

lemma process_agent_result_alert_not_cm (ar : AgentResult) (s : ConversationState) (n : String)
    (h : ar.call_manager = false) :
    (process_agent_result ar s n).manager_alert = s.manager_alert := by
  unfold process_agent_result
  dsimp only
  split
  · rename_i hcm2
    rw [h] at hcm2
    exact absurd hcm2 (by decide)
  · (repeat' split) <;> rfl

lemma process_agent_result_answer_cm (ar : AgentResult) (s : ConversationState) (n : String)
    (e : EscalationResult) (u : String)
    (hcm : ar.call_manager = true) (he : ar.escalation = some e) (hu : e.user_message = some u) :
    (process_agent_result ar s n).answer = u := by
  unfold process_agent_result
  dsimp only
  rw [hcm, he]
  dsimp only
  rw [hu]
  rfl

lemma process_agent_result_alert_cm (ar : AgentResult) (s : ConversationState) (n : String)
    (e : EscalationResult) (m : String)
    (hcm : ar.call_manager = true) (he : ar.escalation = some e) (hm : e.manager_alert = some m) :
    (process_agent_result ar s n).manager_alert = some m := by
  unfold process_agent_result
  dsimp only
  rw [hcm, he]
  dsimp only
  rw [hm]
  rfl

lemma route_after_admin_end (s : ConversationState)
    (h : s.used_tools.contains "SwitchToDemoTool" = false) :
    route_after_admin s = "end" := by
  unfold route_after_admin
  rw [h]
  rfl

lemma route_after_admin_demo (s : ConversationState)
    (h : s.used_tools.contains "SwitchToDemoTool" = true) :
    route_after_admin s = "demo" := by
  unfold route_after_admin
  rw [h]
  rfl

lemma handle_demo_unconfigured (beh : AgentBehavior) (loads : String → Option Config)
    (s : ConversationState) (h : pyTruthyConfig s.demo_config = false) :
    handle_demo beh loads s = demo_setup_path beh loads s := by
  unfold handle_demo
  rw [h]
  rfl

lemma demo_setup_path_fallback (beh : AgentBehavior) (loads : String → Option Config)
    (s : ConversationState) (sr : AgentResult)
    (hsr : beh.demo_setup_result = .ok sr)
    (hbad : ∀ c, parse_json_from_response loads sr.reply = some c → c = [] ∨ missing_fields c ≠ []) :
    demo_setup_path beh loads s = demo_fallback beh s [Dispatch.demoSetup (opt_history s.messages)] := by
  unfold demo_setup_path
  rw [hsr]
  dsimp only
  cases hp : parse_json_from_response loads sr.reply with
  | none => rfl
  | some c =>
    dsimp only
    rcases hbad c hp with h | h
    · subst h
      rfl
    · by_cases hce : c.isEmpty = true
      · rw [if_pos hce]
      · rw [if_neg hce, if_neg h]

/-! ## runTurn routing lemmas -/

lemma runTurn_admin_end (beh : AgentBehavior) (loads : String → Option Config)
    (s0 s1 s2 : ConversationState) (d2 : List Dispatch)
    (hd : detect_stage s0 = s1)
    (hroute : route_after_detect s1 = "admin")
    (hha : handle_admin beh s1 = .ok (s2, d2))
    (hra : route_after_admin s2 = "end") :
    runTurn beh loads s0 = .ok (s2, d2) := by
  simp only [runTurn]
  rw [hd, hroute]
  rw [if_neg (by decide), if_neg (by decide), hha]
  dsimp only
  rw [hra]
  rw [if_neg (by decide)]

lemma runTurn_admin_then_demo (beh : AgentBehavior) (loads : String → Option Config)
    (s0 s1 s2 s3 : ConversationState) (d2 d3 : List Dispatch)
    (hd : detect_stage s0 = s1)
    (hroute : route_after_detect s1 = "admin")
    (hha : handle_admin beh s1 = .ok (s2, d2))
    (hra : route_after_admin s2 = "demo")
    (hdm : handle_demo beh loads s2 = .ok (s3, d3)) :
    runTurn beh loads s0 = .ok (s3, d2 ++ d3) := by
  simp only [runTurn]
  rw [hd, hroute]
  rw [if_neg (by decide), if_neg (by decide), hha]
  dsimp only
  rw [hra, if_pos rfl, hdm]

lemma runTurn_demo (beh : AgentBehavior) (loads : String → Option Config)
    (s0 s1 : ConversationState)
    (hd : detect_stage s0 = s1)
    (hroute : route_after_detect s1 = "demo") :
    runTurn beh loads s0 = handle_demo beh loads s1 := by
  simp only [runTurn]
  rw [hd, hroute]
  rw [if_pos rfl]

lemma runTurn_demo_setup (beh : AgentBehavior) (loads : String → Option Config)
    (s0 s1 : ConversationState)
    (hd : detect_stage s0 = s1)
    (hroute : route_after_detect s1 = "demo_setup") :
    runTurn beh loads s0 = handle_demo_setup beh s1 := by
  simp only [runTurn]
  rw [hd, hroute]
  rw [if_neg (by decide), if_pos rfl]

/-! ## Existence-style handler summaries -/

lemma handle_admin_spec (beh : AgentBehavior) (s : ConversationState) (ar : AgentResult)
    (har : beh.admin_result = .ok ar) :
    ∃ s2, handle_admin beh s = .ok (s2, [Dispatch.admin (opt_history s.admin_messages)]) ∧
      s2.stage = s.stage ∧
      s2.demo_config = s.demo_config ∧
      s2.messages = s.messages ∧
      s2.demo_messages = s.demo_messages ∧
      s2.message = s.message ∧
      s2.used_tools = ar.tool_calls.map ToolCall.name ∧
      (ar.call_manager = false → s2.answer = ar.reply) := by
  refine ⟨_, handle_admin_eq beh s ar har, ?_, ?_, ?_, ?_, ?_, ?_, ?_⟩
  · exact process_agent_result_stage ar s "AdminAgent"
  · exact process_agent_result_demo_config ar s "AdminAgent"
  · exact (process_agent_result_hist_admin ar s).1
  · exact (process_agent_result_hist_admin ar s).2.2
  · exact process_agent_result_message ar s "AdminAgent"
  · exact process_agent_result_used_tools ar s "AdminAgent"
  · intro h
    exact process_agent_result_answer ar s "AdminAgent" h

lemma demo_main_spec (beh : AgentBehavior) (s : ConversationState) (c : Config)
    (log : List Dispatch) (ar : AgentResult) (hdr : beh.demo_result = .ok ar) :
    ∃ s3, demo_main beh s c log =
        .ok (s3, log ++ [Dispatch.demoConfigured c (opt_history s.demo_messages)]) ∧
      s3.stage = some "demo" ∧
      s3.demo_config = some c ∧
      s3.answer = decorate_demo_answer (process_agent_result ar s "DemoAgent").answer ∧
      s3.messages = s.messages ∧
      s3.admin_messages = s.admin_messages ∧
      s3.demo_messages = ar.messages ∧
      s3.manager_alert = (process_agent_result ar s "DemoAgent").manager_alert := by
  refine ⟨_, demo_main_eq beh s c log ar hdr, rfl, rfl, rfl, ?_, ?_, ?_, rfl⟩
  · exact (process_agent_result_hist_demo ar s).1
  · exact (process_agent_result_hist_demo ar s).2.1
  · exact (process_agent_result_hist_demo ar s).2.2

lemma demo_fallback_spec (beh : AgentBehavior) (s : ConversationState)
    (log : List Dispatch) (ar : AgentResult) (hdr : beh.demo_result = .ok ar) :
    ∃ s3, demo_fallback beh s log =
        .ok (s3, log ++ [Dispatch.demoUnconfigured (opt_history s.demo_messages)]) ∧
      s3.stage = some "demo" ∧
      s3.demo_config = s.demo_config ∧
      s3.answer = (process_agent_result ar s "DemoAgent").answer ∧
      s3.messages = s.messages ∧
      s3.admin_messages = s.admin_messages ∧
      s3.demo_messages = ar.messages := by
  refine ⟨_, demo_fallback_eq beh s log ar hdr, rfl, ?_, rfl, ?_, ?_, ?_⟩
  · exact process_agent_result_demo_config ar s "DemoAgent"
  · exact (process_agent_result_hist_demo ar s).1
  · exact (process_agent_result_hist_demo ar s).2.1
  · exact (process_agent_result_hist_demo ar s).2.2

lemma handle_demo_setup_spec (beh : AgentBehavior) (s : ConversationState) (ar : AgentResult)
    (hsr : beh.demo_setup_result = .ok ar) :
    ∃ s2, handle_demo_setup beh s = .ok (s2, [Dispatch.demoSetup (opt_history s.messages)]) ∧
      s2.stage = some "demo_setup" ∧
      s2.demo_config = s.demo_config ∧
      s2.messages = ar.messages ∧
      s2.admin_messages = s.admin_messages ∧
      s2.demo_messages = s.demo_messages := by
  refine ⟨_, handle_demo_setup_eq beh s ar hsr, rfl, ?_, ?_, ?_, ?_⟩
  · exact process_agent_result_demo_config ar s "DemoSetupAgent"
  · exact (process_agent_result_hist_demo_setup ar s).1
  · exact (process_agent_result_hist_demo_setup ar s).2.1
  · exact (process_agent_result_hist_demo_setup ar s).2.2

/-! ## Claim theorems -/

/-- C1 (counterexample): with restored stage `demo` and the inbound message
"стоп", the turn does not skip agent dispatch and emits no fixed farewell —
the admin agent is invoked and its own reply is returned (the stage does
move to `admin`). -/
theorem c1_stop_counterexample :
    turn_dispatches (runTurn ⟨.ok { okResult with reply := "Хорошо, чем могу помочь?" }, .ok okResult, .ok okResult⟩
        loadsNone { baseState with stage := some "demo", message := "стоп" }) =
      some [Dispatch.admin none] ∧
    turn_answer (runTurn ⟨.ok { okResult with reply := "Хорошо, чем могу помочь?" }, .ok okResult, .ok okResult⟩
        loadsNone { baseState with stage := some "demo", message := "стоп" }) =
      some "Хорошо, чем могу помочь?" ∧
    turn_stage (runTurn ⟨.ok { okResult with reply := "Хорошо, чем могу помочь?" }, .ok okResult, .ok okResult⟩
        loadsNone { baseState with stage := some "demo", message := "стоп" }) =
      some (some "admin") := by
  decide

/-- C1 (amended): in stage `demo`, a message that strips and lowers to
"стоп" forces the stage to `admin` and the turn is dispatched to the admin
agent, whose reply is returned (exactly one dispatch, no fixed farewell);
outside stage `demo` the override does not fire and the stage survives
detection unchanged. -/
theorem c1_stop_amended
    (s : ConversationState) (beh : AgentBehavior) (loads : String → Option Config)
    (ar : AgentResult)
    (hstage : s.stage = some "demo")
    (hstop : pyLower (pyStrip s.message) = "стоп")
    (har : beh.admin_result = .ok ar)
    (hcm : ar.call_manager = false)
    (hsw : (ar.tool_calls.map ToolCall.name).contains "SwitchToDemoTool" = false) :
    turn_dispatches (runTurn beh loads s) = some [Dispatch.admin (opt_history s.admin_messages)] ∧
    turn_stage (runTurn beh loads s) = some (some "admin") ∧
    turn_answer (runTurn beh loads s) = some ar.reply ∧
    (∀ t : ConversationState, (t.stage = some "admin" ∨ t.stage = some "demo_setup") →
      (detect_stage t).stage = t.stage) := by
  have hd := detect_stage_demo_stop s hstage hstop
  have hroute : route_after_detect { s with stage := some "admin" } = "admin" :=
    route_after_detect_of_stage _ "admin" rfl (by decide)
  obtain ⟨s2, hha, hs2stage, hs2cfg, hs2msgs, hs2demo, hs2msg, hs2ut, hs2ans⟩ :=
    handle_admin_spec beh { s with stage := some "admin" } ar har
  have hra : route_after_admin s2 = "end" := route_after_admin_end s2 (by rw [hs2ut]; exact hsw)
  have hrun := runTurn_admin_end beh loads s _ s2 _ hd hroute hha hra
  refine ⟨?_, ?_, ?_, ?_⟩
  · rw [hrun]
    rfl
  · rw [hrun]
    show some s2.stage = some (some "admin")
    rw [hs2stage]
  · rw [hrun]
    show some s2.answer = some ar.reply
    rw [hs2ans hcm]
  · intro t ht
    rcases ht with h | h
    · rw [detect_stage_keep t "admin" h (by decide)
        (by rintro ⟨hx, -⟩; exact absurd hx (by decide))]
      rw [h]
    · rw [detect_stage_keep t "demo_setup" h (by decide)
        (by rintro ⟨hx, -⟩; exact absurd hx (by decide))]
      rw [h]

/-- C1 (witness): a turn in stage `demo` with the message " СТОП " lands in
stage `admin`. -/
theorem c1_stop_amended_witness :
    turn_stage (runTurn ⟨.ok okResult, .ok okResult, .ok okResult⟩ loadsNone
      { baseState with stage := some "demo", message := " СТОП " }) = some (some "admin") :=
  (c1_stop_amended { baseState with stage := some "demo", message := " СТОП " }
    ⟨.ok okResult, .ok okResult, .ok okResult⟩ loadsNone okResult
    (by decide) (by decide) rfl rfl (by decide)).2.1

/-- C10: `_process_agent_result` updates exactly the history selected by
the agent name (DemoSetupAgent writes the shared `messages`, AdminAgent
writes `admin_messages`, DemoAgent writes `demo_messages`, any other name
writes no history), and every field other than the selected history, the
answer, the alert and the agent/tool metadata passes through unchanged. -/
theorem c10_process_result_frame (ar : AgentResult) (s : ConversationState) (n : String) :
    (n = "DemoSetupAgent" →
      (process_agent_result ar s n).messages = ar.messages ∧
      (process_agent_result ar s n).admin_messages = s.admin_messages ∧
      (process_agent_result ar s n).demo_messages = s.demo_messages) ∧
    (n = "AdminAgent" →
      (process_agent_result ar s n).admin_messages = ar.messages ∧
      (process_agent_result ar s n).messages = s.messages ∧
      (process_agent_result ar s n).demo_messages = s.demo_messages) ∧
    (n = "DemoAgent" →
      (process_agent_result ar s n).demo_messages = ar.messages ∧
      (process_agent_result ar s n).messages = s.messages ∧
      (process_agent_result ar s n).admin_messages = s.admin_messages) ∧
    (n ≠ "DemoSetupAgent" → n ≠ "AdminAgent" → n ≠ "DemoAgent" →
      (process_agent_result ar s n).messages = s.messages ∧
      (process_agent_result ar s n).admin_messages = s.admin_messages ∧
      (process_agent_result ar s n).demo_messages = s.demo_messages) ∧
    (process_agent_result ar s n).message = s.message ∧
    (process_agent_result ar s n).chat_id = s.chat_id ∧
    (process_agent_result ar s n).stage = s.stage ∧
    (process_agent_result ar s n).demo_config = s.demo_config ∧
    (process_agent_result ar s n).extracted_info = s.extracted_info ∧
    (process_agent_result ar s n).agent_name = n ∧
    (process_agent_result ar s n).used_tools = ar.tool_calls.map ToolCall.name ∧
    (process_agent_result ar s n).tool_results = ar.tool_calls := by
  refine ⟨?_, ?_, ?_, ?_, process_agent_result_message ar s n, process_agent_result_chat_id ar s n,
    process_agent_result_stage ar s n, process_agent_result_demo_config ar s n,
    process_agent_result_extracted_info ar s n, process_agent_result_agent_name ar s n,
    process_agent_result_used_tools ar s n, process_agent_result_tool_results ar s n⟩
  · intro h
    subst h
    exact process_agent_result_hist_demo_setup ar s
  · intro h
    subst h
    exact ⟨(process_agent_result_hist_admin ar s).2.1, (process_agent_result_hist_admin ar s).1,
      (process_agent_result_hist_admin ar s).2.2⟩
  · intro h
    subst h
    exact ⟨(process_agent_result_hist_demo ar s).2.2, (process_agent_result_hist_demo ar s).1,
      (process_agent_result_hist_demo ar s).2.1⟩
  · intro h1 h2 h3
    exact process_agent_result_hist_other ar s n h1 h2 h3

/-- C10 (witness): an AdminAgent result lands in `admin_messages`. -/
theorem c10_process_result_frame_witness :
    (process_agent_result { okResult with messages := [⟨"assistant", "ok", none⟩] }
      baseState "AdminAgent").admin_messages = [⟨"assistant", "ok", none⟩] :=
  ((c10_process_result_frame { okResult with messages := [⟨"assistant", "ok", none⟩] }
    baseState "AdminAgent").2.1 rfl).1

/-- Composite evaluation of a demo-stage turn with a stored configuration. -/
lemma runTurn_demo_configured
    (s : ConversationState) (beh : AgentBehavior) (loads : String → Option Config)
    (dr : AgentResult) (c : Config)
    (hstage : s.stage = some "demo")
    (hstop : pyLower (pyStrip s.message) ≠ "стоп")
    (hcfg : s.demo_config = some c)
    (hc : c.isEmpty = false)
    (hdr : beh.demo_result = .ok dr) :
    ∃ s3, runTurn beh loads s = .ok (s3, [Dispatch.demoConfigured c (opt_history s.demo_messages)]) ∧
      s3.stage = some "demo" ∧
      s3.demo_config = some c ∧
      s3.answer = decorate_demo_answer (process_agent_result dr { s with stage := some "demo" } "DemoAgent").answer ∧
      s3.manager_alert = (process_agent_result dr { s with stage := some "demo" } "DemoAgent").manager_alert ∧
      s3.demo_messages = dr.messages ∧
      s3.messages = s.messages ∧
      s3.admin_messages = s.admin_messages := by
  have hd := detect_stage_keep s "demo" hstage (by decide) (by rintro ⟨-, hx⟩; exact hstop hx)
  have hroute := route_after_detect_of_stage ({ s with stage := some "demo" }) "demo" rfl (by decide)
  have hhd := handle_demo_configured beh loads { s with stage := some "demo" } c hcfg hc
  obtain ⟨s3, hdm, h1, h2, h3, h4, h5, h6, h7⟩ :=
    demo_main_spec beh { s with stage := some "demo" } c [] dr hdr
  refine ⟨s3, ?_, h1, h2, h3, h7, h6, h4, h5⟩
  rw [runTurn_demo beh loads s _ hd hroute, hhd, hdm]
  rfl

/-- The successful branch of the demo-setup sub-protocol: a parsed,
non-empty configuration with no missing required field proceeds to the
configured demo agent. -/
lemma demo_setup_path_success (beh : AgentBehavior) (loads : String → Option Config)
    (s : ConversationState) (sr : AgentResult) (c : Config)
    (hsr : beh.demo_setup_result = .ok sr)
    (hp : parse_json_from_response loads sr.reply = some c)
    (hcne : c.isEmpty = false)
    (hmf : missing_fields c = []) :
    demo_setup_path beh loads s = demo_main beh s c [Dispatch.demoSetup (opt_history s.messages)] := by
  unfold demo_setup_path
  rw [hsr]
  dsimp only
  rw [hp]
  dsimp only
  rw [if_neg (by simp [hcne]), if_pos hmf]

/-- C2 (counterexample): an admin-stage turn invoking SwitchToDemoTool in a
session without a stored demo configuration performs three agent
dispatches (admin, demo-setup, unconfigured demo), not the claimed two,
and the returned fallback reply is not even marker-decorated — although
the stage does persist as `demo`. -/
theorem c2_switch_counterexample :
    turn_dispatches (runTurn ⟨.ok { okResult with tool_calls := [⟨"SwitchToDemoTool"⟩] },
        .ok { okResult with reply := "какой у вас бизнес?" },
        .ok { okResult with reply := "Рад помочь!" }⟩ loadsNone
      { baseState with stage := some "admin", message := "хочу демо" }) =
      some [Dispatch.admin none, Dispatch.demoSetup none, Dispatch.demoUnconfigured none] ∧
    (turn_dispatches (runTurn ⟨.ok { okResult with tool_calls := [⟨"SwitchToDemoTool"⟩] },
        .ok { okResult with reply := "какой у вас бизнес?" },
        .ok { okResult with reply := "Рад помочь!" }⟩ loadsNone
      { baseState with stage := some "admin", message := "хочу демо" })).map List.length =
      some 3 ∧
    turn_answer (runTurn ⟨.ok { okResult with tool_calls := [⟨"SwitchToDemoTool"⟩] },
        .ok { okResult with reply := "какой у вас бизнес?" },
        .ok { okResult with reply := "Рад помочь!" }⟩ loadsNone
      { baseState with stage := some "admin", message := "хочу демо" }) =
      some "Рад помочь!" ∧
    pyStartsWith "Рад помочь!" demoMarker = false ∧
    turn_stage (runTurn ⟨.ok { okResult with tool_calls := [⟨"SwitchToDemoTool"⟩] },
        .ok { okResult with reply := "какой у вас бизнес?" },
        .ok { okResult with reply := "Рад помочь!" }⟩ loadsNone
      { baseState with stage := some "admin", message := "хочу демо" }) =
      some (some "demo") := by
  decide

/-- C2 (amended): every admin-stage turn whose admin result invokes
SwitchToDemoTool re-dispatches the same turn to the demo handler, only the
demo handler's reply is returned, and the persisted stage is `demo`; the
dispatch count is two (admin, then the configured demo agent, with the
marker-decorated reply) only when a demo configuration is already stored —
otherwise the demo-setup sub-protocol runs first, for three dispatches in
the same turn (with an undecorated reply on its fallback path, and a newly
persisted configuration plus decorated reply on its success path). -/
theorem c2_switch_to_demo_redispatch
    (s : ConversationState) (beh : AgentBehavior) (loads : String → Option Config)
    (ar : AgentResult)
    (hstage : s.stage = some "admin")
    (har : beh.admin_result = .ok ar)
    (hsw : (ar.tool_calls.map ToolCall.name).contains "SwitchToDemoTool" = true) :
    (∀ (dr : AgentResult) (c : Config),
      s.demo_config = some c → c.isEmpty = false →
      beh.demo_result = .ok dr → dr.call_manager = false →
      dr.reply ≠ "" → pyStartsWith dr.reply demoMarker = false →
      turn_dispatches (runTurn beh loads s) =
        some [Dispatch.admin (opt_history s.admin_messages),
          Dispatch.demoConfigured c (opt_history s.demo_messages)] ∧
      turn_stage (runTurn beh loads s) = some (some "demo") ∧
      turn_answer (runTurn beh loads s) = some (demoMarker ++ dr.reply)) ∧
    (∀ (sr dr : AgentResult),
      pyTruthyConfig s.demo_config = false →
      beh.demo_setup_result = .ok sr → beh.demo_result = .ok dr → dr.call_manager = false →
      (∀ c, parse_json_from_response loads sr.reply = some c → c = [] ∨ missing_fields c ≠ []) →
      turn_dispatches (runTurn beh loads s) =
        some [Dispatch.admin (opt_history s.admin_messages),
          Dispatch.demoSetup (opt_history s.messages),
          Dispatch.demoUnconfigured (opt_history s.demo_messages)] ∧
      turn_stage (runTurn beh loads s) = some (some "demo") ∧
      turn_answer (runTurn beh loads s) = some dr.reply) ∧
    (∀ (sr dr : AgentResult) (c : Config),
      pyTruthyConfig s.demo_config = false →
      beh.demo_setup_result = .ok sr → beh.demo_result = .ok dr → dr.call_manager = false →
      parse_json_from_response loads sr.reply = some c → c.isEmpty = false →
      missing_fields c = [] →
      dr.reply ≠ "" → pyStartsWith dr.reply demoMarker = false →
      turn_dispatches (runTurn beh loads s) =
        some [Dispatch.admin (opt_history s.admin_messages),
          Dispatch.demoSetup (opt_history s.messages),
          Dispatch.demoConfigured c (opt_history s.demo_messages)] ∧
      turn_stage (runTurn beh loads s) = some (some "demo") ∧
      turn_answer (runTurn beh loads s) = some (demoMarker ++ dr.reply) ∧
      (turn_state (runTurn beh loads s)).map ConversationState.demo_config = some (some c)) := by
  have hd := detect_stage_keep s "admin" hstage (by decide)
    (by rintro ⟨hx, -⟩; exact absurd hx (by decide))
  have hroute : route_after_detect { s with stage := some "admin" } = "admin" :=
    route_after_detect_of_stage _ "admin" rfl (by decide)
  obtain ⟨s2, hha, hs2stage, hs2cfg, hs2msgs, hs2demo, hs2msg, hs2ut, hs2ans⟩ :=
    handle_admin_spec beh { s with stage := some "admin" } ar har
  have hra : route_after_admin s2 = "demo" := route_after_admin_demo s2 (by rw [hs2ut]; exact hsw)
  refine ⟨?_, ?_, ?_⟩
  · intro dr c hcfg hc hdr hdcm hne hnp
    have hs2cfg2 : s2.demo_config = some c := by rw [hs2cfg]; exact hcfg
    have hhd := handle_demo_configured beh loads s2 c hs2cfg2 hc
    obtain ⟨s3, hdm, h1, h2, h3, h4, h5, h6, h7⟩ := demo_main_spec beh s2 c [] dr hdr
    have hrun := runTurn_admin_then_demo beh loads s _ s2 s3 _ _ hd hroute hha hra
      (by rw [hhd]; exact hdm)
    refine ⟨?_, ?_, ?_⟩
    · rw [hrun, hs2demo]
      rfl
    · rw [hrun]
      show some s3.stage = some (some "demo")
      rw [h1]
    · rw [hrun]
      show some s3.answer = some (demoMarker ++ dr.reply)
      rw [h3, process_agent_result_answer dr s2 "DemoAgent" hdcm]
      unfold decorate_demo_answer
      rw [if_neg hne, hnp]
      rfl
  · intro sr dr hcfg0 hsr hdr hdcm hbad
    have hs2cfg2 : pyTruthyConfig s2.demo_config = false := by rw [hs2cfg]; exact hcfg0
    have hhd := handle_demo_unconfigured beh loads s2 hs2cfg2
    have hsp := demo_setup_path_fallback beh loads s2 sr hsr hbad
    obtain ⟨s3, hfb, h1, h2, h3, h4, h5, h6⟩ :=
      demo_fallback_spec beh s2 [Dispatch.demoSetup (opt_history s2.messages)] dr hdr
    have hrun := runTurn_admin_then_demo beh loads s _ s2 s3 _ _ hd hroute hha hra
      (by rw [hhd, hsp]; exact hfb)
    refine ⟨?_, ?_, ?_⟩
    · rw [hrun, hs2msgs, hs2demo]
      rfl
    · rw [hrun]
      show some s3.stage = some (some "demo")
      rw [h1]
    · rw [hrun]
      show some s3.answer = some dr.reply
      rw [h3, process_agent_result_answer dr s2 "DemoAgent" hdcm]
  · intro sr dr c hcfg0 hsr hdr hdcm hp hcne hmf hne hnp
    have hs2cfg2 : pyTruthyConfig s2.demo_config = false := by rw [hs2cfg]; exact hcfg0
    have hhd := handle_demo_unconfigured beh loads s2 hs2cfg2
    have hsp := demo_setup_path_success beh loads s2 sr c hsr hp hcne hmf
    obtain ⟨s3, hdm, h1, h2, h3, h4, h5, h6, h7⟩ :=
      demo_main_spec beh s2 c [Dispatch.demoSetup (opt_history s2.messages)] dr hdr
    have hrun := runTurn_admin_then_demo beh loads s _ s2 s3 _ _ hd hroute hha hra
      (by rw [hhd, hsp]; exact hdm)
    refine ⟨?_, ?_, ?_, ?_⟩
    · rw [hrun, hs2msgs, hs2demo]
      rfl
    · rw [hrun]
      show some s3.stage = some (some "demo")
      rw [h1]
    · rw [hrun]
      show some s3.answer = some (demoMarker ++ dr.reply)
      rw [h3, process_agent_result_answer dr s2 "DemoAgent" hdcm]
      unfold decorate_demo_answer
      rw [if_neg hne, hnp]
      rfl
    · rw [hrun]
      show some s3.demo_config = some (some c)
      rw [h2]

/-- C2 (witness): with a stored configuration, a concrete switch turn makes
the admin-then-demo double dispatch and returns the decorated demo reply. -/
theorem c2_switch_to_demo_redispatch_witness :
    turn_answer (runTurn ⟨.ok { okResult with tool_calls := [⟨"SwitchToDemoTool"⟩] }, .ok okResult,
        .ok { okResult with reply := "Добрый день!" }⟩ loadsNone
      { baseState with stage := some "admin", demo_config := some [("niche", "кофейня")] }) =
      some (demoMarker ++ "Добрый день!") :=
  (((c2_switch_to_demo_redispatch
    { baseState with stage := some "admin", demo_config := some [("niche", "кофейня")] }
    ⟨.ok { okResult with tool_calls := [⟨"SwitchToDemoTool"⟩] }, .ok okResult,
      .ok { okResult with reply := "Добрый день!" }⟩
    loadsNone
    { okResult with tool_calls := [⟨"SwitchToDemoTool"⟩] }
    rfl rfl (by decide)).1
    { okResult with reply := "Добрый день!" }
    [("niche", "кофейня")]
    rfl rfl rfl rfl (by decide) (by decide))).2.2

/-- C3: a demo-stage turn with no stored configuration whose demo-setup
reply fails to parse, parses to an empty record, or misses a required
field, completes without error: it dispatches the demo-setup agent and
then the unconfigured demo agent, persists no configuration, and returns
the unconfigured demo agent's reply. -/
theorem c3_malformed_setup_fallback
    (s : ConversationState) (beh : AgentBehavior) (loads : String → Option Config)
    (sr dr : AgentResult)
    (hstage : s.stage = some "demo")
    (hstop : pyLower (pyStrip s.message) ≠ "стоп")
    (hcfg : pyTruthyConfig s.demo_config = false)
    (hsr : beh.demo_setup_result = .ok sr)
    (hdr : beh.demo_result = .ok dr)
    (hdcm : dr.call_manager = false)
    (hbad : ∀ c, parse_json_from_response loads sr.reply = some c → c = [] ∨ missing_fields c ≠ []) :
    turn_dispatches (runTurn beh loads s) =
      some [Dispatch.demoSetup (opt_history s.messages),
        Dispatch.demoUnconfigured (opt_history s.demo_messages)] ∧
    turn_answer (runTurn beh loads s) = some dr.reply ∧
    (turn_state (runTurn beh loads s)).map ConversationState.demo_config = some s.demo_config := by
  have hd := detect_stage_keep s "demo" hstage (by decide) (by rintro ⟨-, hx⟩; exact hstop hx)
  have hroute := route_after_detect_of_stage ({ s with stage := some "demo" }) "demo" rfl (by decide)
  have hhd := handle_demo_unconfigured beh loads { s with stage := some "demo" } hcfg
  have hsp := demo_setup_path_fallback beh loads { s with stage := some "demo" } sr hsr hbad
  obtain ⟨s3, hfb, h1, h2, h3, h4, h5, h6⟩ :=
    demo_fallback_spec beh { s with stage := some "demo" }
      [Dispatch.demoSetup (opt_history ({ s with stage := some "demo" } : ConversationState).messages)] dr hdr
  have hrun : runTurn beh loads s = .ok (s3,
      [Dispatch.demoSetup (opt_history ({ s with stage := some "demo" } : ConversationState).messages)] ++
        [Dispatch.demoUnconfigured (opt_history ({ s with stage := some "demo" } : ConversationState).demo_messages)]) := by
    rw [runTurn_demo beh loads s _ hd hroute, hhd, hsp, hfb]
  refine ⟨?_, ?_, ?_⟩
  · rw [hrun]
    rfl
  · rw [hrun]
    show some s3.answer = some dr.reply
    rw [h3, process_agent_result_answer dr _ "DemoAgent" hdcm]
  · rw [hrun]
    show some s3.demo_config = some s.demo_config
    rw [h2]

/-- C3 (witness): an unparsable demo-setup reply degrades to the plain
demo agent's answer. -/
theorem c3_malformed_setup_fallback_witness :
    turn_answer (runTurn ⟨.ok okResult, .ok { okResult with reply := "я не понимаю" },
        .ok { okResult with reply := "Здравствуйте!" }⟩ loadsNone
      { baseState with stage := some "demo", message := "привет" }) = some "Здравствуйте!" :=
  (c3_malformed_setup_fallback { baseState with stage := some "demo", message := "привет" }
    ⟨.ok okResult, .ok { okResult with reply := "я не понимаю" },
      .ok { okResult with reply := "Здравствуйте!" }⟩
    loadsNone { okResult with reply := "я не понимаю" } { okResult with reply := "Здравствуйте!" }
    rfl (by decide) rfl rfl rfl rfl
    (by
      intro c hc
      rw [show parse_json_from_response loadsNone "я не понимаю" = none from by decide] at hc
      exact Option.noConfusion hc)).2.1

/-- C4 (counterexample): in the demo stage an escalation's user message is
not returned verbatim — `_handle_demo` still prepends the demo marker on
top of it, so the returned reply differs from the escalation's own
user-message field. -/
theorem c4_escalation_counterexample :
    turn_answer (runTurn ⟨.ok okResult, .ok okResult,
        .ok { okResult with
                call_manager := true
                escalation := some ⟨some "Переключаю на менеджера", some "Клиент просит менеджера"⟩ }⟩
        loadsNone
      { baseState with
          stage := some "demo"
          message := "позовите менеджера"
          demo_config := some [("niche", "кофейня")] }) ≠
      some "Переключаю на менеджера" ∧
    turn_answer (runTurn ⟨.ok okResult, .ok okResult,
        .ok { okResult with
                call_manager := true
                escalation := some ⟨some "Переключаю на менеджера", some "Клиент просит менеджера"⟩ }⟩
        loadsNone
      { baseState with
          stage := some "demo"
          message := "позовите менеджера"
          demo_config := some [("niche", "кофейня")] }) =
      some (demoMarker ++ "Переключаю на менеджера") ∧
    (turn_state (runTurn ⟨.ok okResult, .ok okResult,
        .ok { okResult with
                call_manager := true
                escalation := some ⟨some "Переключаю на менеджера", some "Клиент просит менеджера"⟩ }⟩
        loadsNone
      { baseState with
          stage := some "demo"
          message := "позовите менеджера"
          demo_config := some [("niche", "кофейня")] })).map ConversationState.manager_alert =
      some (some "Клиент просит менеджера") := by
  decide

/-- C4 (amended): the agent-result handler sets the reply to the
escalation's user-message field and populates the alert payload; but in a
configured demo-stage turn the demo marker is still prepended to that
user message (escalation does not take precedence over the decoration),
while the alert payload still reaches the returned state. -/
theorem c4_escalation_amended :
    (∀ (ar : AgentResult) (s : ConversationState) (n : String) (e : EscalationResult) (u m : String),
      ar.call_manager = true → ar.escalation = some e → e.user_message = some u →
      e.manager_alert = some m →
      (process_agent_result ar s n).answer = u ∧
      (process_agent_result ar s n).manager_alert = some m) ∧
    (∀ (s : ConversationState) (beh : AgentBehavior) (loads : String → Option Config)
      (dr : AgentResult) (c : Config) (e : EscalationResult) (u m : String),
      s.stage = some "demo" → pyLower (pyStrip s.message) ≠ "стоп" →
      s.demo_config = some c → c.isEmpty = false →
      beh.demo_result = .ok dr → dr.call_manager = true → dr.escalation = some e →
      e.user_message = some u → e.manager_alert = some m →
      u ≠ "" → pyStartsWith u demoMarker = false →
      turn_answer (runTurn beh loads s) = some (demoMarker ++ u) ∧
      (turn_state (runTurn beh loads s)).map ConversationState.manager_alert = some (some m)) := by
  constructor
  · intro ar s n e u m hcm he hu hm
    exact ⟨process_agent_result_answer_cm ar s n e u hcm he hu,
      process_agent_result_alert_cm ar s n e m hcm he hm⟩
  · intro s beh loads dr c e u m hstage hstop hcfg hc hdr hcm he hu hm hune hnp
    obtain ⟨s3, hrun, h1, h2, h3, h7, h6, h4, h5⟩ :=
      runTurn_demo_configured s beh loads dr c hstage hstop hcfg hc hdr
    refine ⟨?_, ?_⟩
    · rw [hrun]
      show some s3.answer = some (demoMarker ++ u)
      rw [h3, process_agent_result_answer_cm dr _ "DemoAgent" e u hcm he hu]
      unfold decorate_demo_answer
      rw [if_neg hune, hnp]
      rfl
    · rw [hrun]
      show some s3.manager_alert = some (some m)
      rw [h7, process_agent_result_alert_cm dr _ "DemoAgent" e m hcm he hm]

/-- C4 (witness): a concrete configured demo turn with an escalating demo
agent yields the marker-decorated escalation message and the alert. -/
theorem c4_escalation_amended_witness :
    turn_answer (runTurn ⟨.ok okResult, .ok okResult,
        .ok { okResult with
                call_manager := true
                escalation := some ⟨some "Зову оператора", some "Нужен оператор"⟩ }⟩
        loadsNone
      { baseState with
          stage := some "demo"
          message := "оператора"
          demo_config := some [("niche", "пекарня")] }) =
      some (demoMarker ++ "Зову оператора") :=
  (c4_escalation_amended.2
    { baseState with
        stage := some "demo"
        message := "оператора"
        demo_config := some [("niche", "пекарня")] }
    ⟨.ok okResult, .ok okResult,
      .ok { okResult with
              call_manager := true
              escalation := some ⟨some "Зову оператора", some "Нужен оператор"⟩ }⟩
    loadsNone
    { okResult with
        call_manager := true
        escalation := some ⟨some "Зову оператора", some "Нужен оператор"⟩ }
    [("niche", "пекарня")] ⟨some "Зову оператора", some "Нужен оператор"⟩
    "Зову оператора" "Нужен оператор"
    rfl (by decide) rfl rfl rfl rfl rfl rfl rfl (by decide) (by decide)).1

/-- C5 (counterexample): a successful (non-escalation) demo-stage reply
produced through the unconfigured fallback path is returned without the
demo marker — the decoration is not applied to every demo-stage reply. -/
theorem c5_demo_marker_counterexample :
    turn_answer (runTurn ⟨.ok okResult, .ok { okResult with reply := "непонятный ответ" },
        .ok { okResult with reply := "Добро пожаловать!" }⟩ loadsNone
      { baseState with stage := some "demo", message := "хочу демо" }) =
      some "Добро пожаловать!" ∧
    pyStartsWith "Добро пожаловать!" demoMarker = false ∧
    turn_stage (runTurn ⟨.ok okResult, .ok { okResult with reply := "непонятный ответ" },
        .ok { okResult with reply := "Добро пожаловать!" }⟩ loadsNone
      { baseState with stage := some "demo", message := "хочу демо" }) =
      some (some "demo") := by
  decide

/-- C5 (amended): on the configured demo path the decoration is idempotent:
a non-empty non-escalation reply that does not start with the demo marker
gets it prepended exactly once, and a reply already starting with the
marker is returned unchanged; replies from the unconfigured fallback path
are returned undecorated. -/
theorem c5_demo_marker_amended
    (s : ConversationState) (beh : AgentBehavior) (loads : String → Option Config)
    (dr : AgentResult) (c : Config)
    (hstage : s.stage = some "demo")
    (hstop : pyLower (pyStrip s.message) ≠ "стоп")
    (hcfg : s.demo_config = some c)
    (hc : c.isEmpty = false)
    (hdr : beh.demo_result = .ok dr)
    (hdcm : dr.call_manager = false)
    (hne : dr.reply ≠ "") :
    (pyStartsWith dr.reply demoMarker = false →
      turn_answer (runTurn beh loads s) = some (demoMarker ++ dr.reply)) ∧
    (pyStartsWith dr.reply demoMarker = true →
      turn_answer (runTurn beh loads s) = some dr.reply) := by
  obtain ⟨s3, hrun, h1, h2, h3, h7, h6, h4, h5⟩ :=
    runTurn_demo_configured s beh loads dr c hstage hstop hcfg hc hdr
  constructor
  · intro hnp
    rw [hrun]
    show some s3.answer = some (demoMarker ++ dr.reply)
    rw [h3, process_agent_result_answer dr _ "DemoAgent" hdcm]
    unfold decorate_demo_answer
    rw [if_neg hne, hnp]
    rfl
  · intro hp
    rw [hrun]
    show some s3.answer = some dr.reply
    rw [h3, process_agent_result_answer dr _ "DemoAgent" hdcm]
    unfold decorate_demo_answer
    rw [if_neg hne, hp]
    rfl

/-- C5 (witness): an already-decorated reply passes through unchanged, while
an undecorated one gains the marker once. -/
theorem c5_demo_marker_amended_witness :
    turn_answer (runTurn ⟨.ok okResult, .ok okResult,
        .ok { okResult with reply := demoMarker ++ "Снова привет" }⟩ loadsNone
      { baseState with
          stage := some "demo"
          message := "ещё раз"
          demo_config := some [("niche", "ателье")] }) =
      some (demoMarker ++ "Снова привет") :=
  (c5_demo_marker_amended
    { baseState with
        stage := some "demo"
        message := "ещё раз"
        demo_config := some [("niche", "ателье")] }
    ⟨.ok okResult, .ok okResult, .ok { okResult with reply := demoMarker ++ "Снова привет" }⟩
    loadsNone { okResult with reply := demoMarker ++ "Снова привет" } [("niche", "ателье")]
    rfl (by decide) rfl rfl rfl rfl (by decide)).2 (by decide)

/-- C6 (counterexample): the admin stage is not dispatched with the shared
history: with distinct shared and admin histories, the admin agent
receives the history derived from `admin_messages`, its new messages are
written to `admin_messages`, and the shared `messages` field is left
untouched. -/
theorem c6_history_counterexample :
    turn_dispatches (runTurn ⟨.ok { okResult with messages := [⟨"assistant", "новый ход", none⟩] },
        .ok okResult, .ok okResult⟩ loadsNone
      { baseState with
          stage := some "admin"
          messages := [⟨"user", "общая история", none⟩]
          admin_messages := [⟨"user", "история админа", none⟩] }) =
      some [Dispatch.admin (some (messages_to_history [⟨"user", "история админа", none⟩]))] ∧
    some (messages_to_history [⟨"user", "история админа", none⟩]) ≠
      some (messages_to_history [⟨"user", "общая история", none⟩]) ∧
    (turn_state (runTurn ⟨.ok { okResult with messages := [⟨"assistant", "новый ход", none⟩] },
        .ok okResult, .ok okResult⟩ loadsNone
      { baseState with
          stage := some "admin"
          messages := [⟨"user", "общая история", none⟩]
          admin_messages := [⟨"user", "история админа", none⟩] })).map ConversationState.messages =
      some [⟨"user", "общая история", none⟩] ∧
    (turn_state (runTurn ⟨.ok { okResult with messages := [⟨"assistant", "новый ход", none⟩] },
        .ok okResult, .ok okResult⟩ loadsNone
      { baseState with
          stage := some "admin"
          messages := [⟨"user", "общая история", none⟩]
          admin_messages := [⟨"user", "история админа", none⟩] })).map ConversationState.admin_messages =
      some [⟨"assistant", "новый ход", none⟩] := by
  decide

/-- C6 (amended): only the demo_setup stage is dispatched with and writes
the shared history; the admin stage is dispatched with and writes its own
isolated `admin_messages` (leaving the shared and demo histories
untouched), and the demo stage is dispatched with and writes only the
isolated `demo_messages`. -/
theorem c6_history_amended :
    (∀ (beh : AgentBehavior) (s : ConversationState) (ar : AgentResult),
      beh.admin_result = .ok ar →
      turn_dispatches (handle_admin beh s) = some [Dispatch.admin (opt_history s.admin_messages)] ∧
      (turn_state (handle_admin beh s)).map ConversationState.messages = some s.messages ∧
      (turn_state (handle_admin beh s)).map ConversationState.demo_messages = some s.demo_messages) ∧
    (∀ (beh : AgentBehavior) (s : ConversationState) (ar : AgentResult),
      beh.demo_setup_result = .ok ar →
      turn_dispatches (handle_demo_setup beh s) = some [Dispatch.demoSetup (opt_history s.messages)] ∧
      (turn_state (handle_demo_setup beh s)).map ConversationState.messages = some ar.messages ∧
      (turn_state (handle_demo_setup beh s)).map ConversationState.admin_messages = some s.admin_messages ∧
      (turn_state (handle_demo_setup beh s)).map ConversationState.demo_messages = some s.demo_messages) ∧
    (∀ (beh : AgentBehavior) (loads : String → Option Config) (s : ConversationState)
      (c : Config) (ar : AgentResult),
      s.demo_config = some c → c.isEmpty = false → beh.demo_result = .ok ar →
      turn_dispatches (handle_demo beh loads s) =
        some [Dispatch.demoConfigured c (opt_history s.demo_messages)] ∧
      (turn_state (handle_demo beh loads s)).map ConversationState.messages = some s.messages ∧
      (turn_state (handle_demo beh loads s)).map ConversationState.admin_messages = some s.admin_messages ∧
      (turn_state (handle_demo beh loads s)).map ConversationState.demo_messages = some ar.messages) := by
  refine ⟨?_, ?_, ?_⟩
  · intro beh s ar har
    obtain ⟨s2, hha, _, _, hmsgs, hdemo, _, _, _⟩ := handle_admin_spec beh s ar har
    rw [hha]
    refine ⟨rfl, ?_, ?_⟩
    · show some s2.messages = some s.messages
      rw [hmsgs]
    · show some s2.demo_messages = some s.demo_messages
      rw [hdemo]
  · intro beh s ar hsr
    obtain ⟨s2, heq, _, _, hm, ha, hd⟩ := handle_demo_setup_spec beh s ar hsr
    rw [heq]
    refine ⟨rfl, ?_, ?_, ?_⟩
    · show some s2.messages = some ar.messages
      rw [hm]
    · show some s2.admin_messages = some s.admin_messages
      rw [ha]
    · show some s2.demo_messages = some s.demo_messages
      rw [hd]
  · intro beh loads s c ar hcfg hc hdr
    rw [handle_demo_configured beh loads s c hcfg hc]
    obtain ⟨s3, heq, _, _, _, hm, ha, hd, _⟩ := demo_main_spec beh s c [] ar hdr
    rw [heq]
    refine ⟨rfl, ?_, ?_, ?_⟩
    · show some s3.messages = some s.messages
      rw [hm]
    · show some s3.admin_messages = some s.admin_messages
      rw [ha]
    · show some s3.demo_messages = some ar.messages
      rw [hd]

/-- C6 (witness): the demo-setup handler hands the shared history to the
agent and stores its messages back into the shared history. -/
theorem c6_history_amended_witness :
    turn_dispatches (handle_demo_setup ⟨.ok okResult, .ok { okResult with messages := [⟨"assistant", "ответ", none⟩] }, .ok okResult⟩
      { baseState with messages := [⟨"user", "опишите бизнес", none⟩] }) =
      some [Dispatch.demoSetup (some (messages_to_history [⟨"user", "опишите бизнес", none⟩]))] :=
  (c6_history_amended.2.1 ⟨.ok okResult, .ok { okResult with messages := [⟨"assistant", "ответ", none⟩] }, .ok okResult⟩
    { baseState with messages := [⟨"user", "опишите бизнес", none⟩] }
    { okResult with messages := [⟨"assistant", "ответ", none⟩] } rfl).1

/-- `_detect_stage` only ever writes the `stage` channel. -/
lemma detect_stage_shape (s : ConversationState) :
    ∃ st, detect_stage s = { s with stage := some st } := by
  rcases hs : s.stage with _ | st
  · refine ⟨"admin", ?_⟩
    unfold detect_stage
    rw [if_neg (by rintro ⟨hx, -⟩; rw [hs] at hx; exact Option.noConfusion hx), hs]
  · by_cases hdemo : st = "demo" ∧ pyLower (pyStrip s.message) = "стоп"
    · obtain ⟨rfl, hstop2⟩ := hdemo
      exact ⟨"admin", detect_stage_demo_stop s hs hstop2⟩
    · by_cases hst : st = ""
      · subst hst
        refine ⟨"admin", ?_⟩
        unfold detect_stage
        rw [if_neg (by
          rintro ⟨hx, hy⟩
          rw [hs] at hx
          exact hdemo ⟨Option.some.inj hx, hy⟩), hs]
        rfl
      · exact ⟨st, detect_stage_keep s st hs hst (fun hx => hdemo hx)⟩

/-- Any successfully completed turn leaves a truthy stored demo
configuration exactly as it was. -/
lemma runTurn_preserves_truthy_config
    (s : ConversationState) (beh : AgentBehavior) (loads : String → Option Config)
    (c : Config) (sq : ConversationState) (ds : List Dispatch)
    (hcfg : s.demo_config = some c) (hc : c.isEmpty = false)
    (hrun : runTurn beh loads s = .ok (sq, ds)) :
    sq.demo_config = some c := by
  obtain ⟨st, hd⟩ := detect_stage_shape s
  have hcfg1 : ({ s with stage := some st } : ConversationState).demo_config = some c := hcfg
  simp only [runTurn] at hrun
  rw [hd] at hrun
  split at hrun
  · rw [handle_demo_configured beh loads _ c hcfg1 hc] at hrun
    cases hbr : beh.demo_result with
    | error e =>
      unfold demo_main at hrun
      rw [hbr] at hrun
      exact absurd hrun (by simp)
    | ok dr =>
      obtain ⟨s3, hdm, _, h2, _, _, _, _, _⟩ := demo_main_spec beh _ c [] dr hbr
      rw [hdm] at hrun
      injection hrun with hpair
      injection hpair with hs hd2
      exact hs ▸ h2
  split at hrun
  · cases hbr : beh.demo_setup_result with
    | error e =>
      unfold handle_demo_setup at hrun
      rw [hbr] at hrun
      exact absurd hrun (by simp)
    | ok ar =>
      obtain ⟨s2, heq, _, hcfg2, _, _, _⟩ := handle_demo_setup_spec beh _ ar hbr
      rw [heq] at hrun
      injection hrun with hpair
      injection hpair with hs hd2
      exact hs ▸ (hcfg2.trans hcfg1)
  · cases hbr : beh.admin_result with
    | error e =>
      unfold handle_admin at hrun
      rw [hbr] at hrun
      exact absurd hrun (by simp)
    | ok ar =>
      obtain ⟨s2, hha2, _, hcfg2, _, _, _, _, _⟩ := handle_admin_spec beh _ ar hbr
      rw [hha2] at hrun
      dsimp only at hrun
      have hcfg3 : s2.demo_config = some c := hcfg2.trans hcfg1
      split at hrun
      · rw [handle_demo_configured beh loads s2 c hcfg3 hc] at hrun
        cases hbr2 : beh.demo_result with
        | error e =>
          unfold demo_main at hrun
          rw [hbr2] at hrun
          exact absurd hrun (by simp)
        | ok dr =>
          obtain ⟨s3, hdm, _, h2, _, _, _, _, _⟩ := demo_main_spec beh s2 c [] dr hbr2
          rw [hdm] at hrun
          dsimp only at hrun
          injection hrun with hpair
          injection hpair with hs hd2
          exact hs ▸ h2
      · injection hrun with hpair
        injection hpair with hs hd2
        exact hs ▸ hcfg3

/-- C7: a truthy stored demo configuration survives every successfully
completed turn unchanged, and a demo-stage turn (no stop command) with a
stored configuration performs exactly one dispatch — the configured demo
agent with that configuration — never the demo-setup agent. -/
theorem c7_config_reuse
    (s : ConversationState) (beh : AgentBehavior) (loads : String → Option Config)
    (c : Config) (sq : ConversationState) (ds : List Dispatch)
    (hcfg : s.demo_config = some c) (hc : c.isEmpty = false)
    (hrun : runTurn beh loads s = .ok (sq, ds)) :
    sq.demo_config = some c ∧
    (∀ dr, s.stage = some "demo" → pyLower (pyStrip s.message) ≠ "стоп" →
      beh.demo_result = .ok dr →
      ds = [Dispatch.demoConfigured c (opt_history s.demo_messages)] ∧
      (∀ h, Dispatch.demoSetup h ∉ ds)) := by
  refine ⟨runTurn_preserves_truthy_config s beh loads c sq ds hcfg hc hrun, ?_⟩
  intro dr hstage hstop hdr
  obtain ⟨s3, hrun2, -, -, -, -, -, -, -⟩ :=
    runTurn_demo_configured s beh loads dr c hstage hstop hcfg hc hdr
  rw [hrun2] at hrun
  injection hrun with hpair
  injection hpair with hs hd2
  constructor
  · exact hd2.symm
  · intro h hmem
    rw [← hd2] at hmem
    simp at hmem

/-- C7 (witness): a configured demo turn keeps its configuration and
dispatches only the configured demo agent. -/
theorem c7_config_reuse_witness :
    ({ message := "продолжим", chat_id := some "42", stage := some "demo", messages := [],
       admin_messages := [], demo_messages := [], answer := "[Демонстрация] Конечно!",
       manager_alert := none, agent_name := "DemoAgent", used_tools := [], tool_results := [],
       demo_config := some [("niche", "цветы")], extracted_info := none } :
        ConversationState).demo_config = some [("niche", "цветы")] :=
  (c7_config_reuse
    { baseState with stage := some "demo", message := "продолжим", demo_config := some [("niche", "цветы")] }
    ⟨.ok okResult, .ok okResult, .ok { okResult with reply := "Конечно!" }⟩ loadsNone
    [("niche", "цветы")]
    { message := "продолжим", chat_id := some "42", stage := some "demo", messages := [],
      admin_messages := [], demo_messages := [], answer := "[Демонстрация] Конечно!",
      manager_alert := none, agent_name := "DemoAgent", used_tools := [], tool_results := [],
      demo_config := some [("niche", "цветы")], extracted_info := none }
    [Dispatch.demoConfigured [("niche", "цветы")] none]
    rfl rfl (by rfl)).1

/-- C8 (counterexample): a turn whose parse step fails does not produce the
apology and does not leave the stored state unchanged: the fallback demo
reply is returned and the new final state is persisted. -/
theorem c8_parse_failure_counterexample :
    (send_to_agent_langgraph ⟨.ok okResult, .ok { okResult with reply := "не могу построить JSON" },
        .ok { okResult with reply := "Здравствуйте!" }⟩ loadsNone
      (some { baseState with stage := some "demo", message := "начнем" })
      { baseState with stage := some "demo", message := "начнем" }).1.user_message ≠
      apology_message ∧
    (send_to_agent_langgraph ⟨.ok okResult, .ok { okResult with reply := "не могу построить JSON" },
        .ok { okResult with reply := "Здравствуйте!" }⟩ loadsNone
      (some { baseState with stage := some "demo", message := "начнем" })
      { baseState with stage := some "demo", message := "начнем" }).1.user_message =
      "Здравствуйте!" ∧
    (send_to_agent_langgraph ⟨.ok okResult, .ok { okResult with reply := "не могу построить JSON" },
        .ok { okResult with reply := "Здравствуйте!" }⟩ loadsNone
      (some { baseState with stage := some "demo", message := "начнем" })
      { baseState with stage := some "demo", message := "начнем" }).2 ≠
      some { baseState with stage := some "demo", message := "начнем" } := by
  decide

/-- C8 (amended): an exception that reaches the service boundary — such as
a raising agent call — is caught there: the reply is the fixed apology and
the stored state is left untouched; a failing admin agent call does
propagate to the boundary.  Parse failures never reach the boundary: they
degrade to the unconfigured demo agent inside the turn. -/
theorem c8_boundary_amended :
    (∀ (beh : AgentBehavior) (loads : String → Option Config)
      (stored : Option ConversationState) (input : ConversationState) (e : String),
      runTurn beh loads input = .error e →
      send_to_agent_langgraph beh loads stored input =
        ({ user_message := apology_message, manager_alert := none }, stored)) ∧
    (∀ (s : ConversationState) (beh : AgentBehavior) (loads : String → Option Config) (e : String),
      route_after_detect (detect_stage s) = "admin" →
      beh.admin_result = .error e →
      runTurn beh loads s = .error e) := by
  constructor
  · intro beh loads stored input e h
    unfold send_to_agent_langgraph
    rw [h]
  · intro s beh loads e hroute he
    simp only [runTurn]
    rw [hroute]
    rw [if_neg (by decide), if_neg (by decide)]
    unfold handle_admin
    rw [he]

/-- C8 (witness): a raising admin agent call degrades to the apology with
the stored state untouched. -/
theorem c8_boundary_amended_witness :
    send_to_agent_langgraph ⟨.error "network down", .ok okResult, .ok okResult⟩ loadsNone
      (some baseState) baseState =
      ({ user_message := apology_message, manager_alert := none }, some baseState) :=
  c8_boundary_amended.1 ⟨.error "network down", .ok okResult, .ok okResult⟩ loadsNone
    (some baseState) baseState "network down"
    (c8_boundary_amended.2 baseState ⟨.error "network down", .ok okResult, .ok okResult⟩
      loadsNone "network down" (by decide) rfl)

/-- C9: a turn whose restored stage is absent or is no member of the three
valid stages is routed to the admin stage, and the (non-switching) turn
dispatches exactly the admin agent. -/
theorem c9_unknown_stage_defaults_admin
    (s : ConversationState) (beh : AgentBehavior) (loads : String → Option Config)
    (ar : AgentResult)
    (hinv : ∀ st, s.stage = some st → st ∉ valid_stages)
    (har : beh.admin_result = .ok ar)
    (hsw : (ar.tool_calls.map ToolCall.name).contains "SwitchToDemoTool" = false) :
    route_after_detect (detect_stage s) = "admin" ∧
    turn_dispatches (runTurn beh loads s) = some [Dispatch.admin (opt_history s.admin_messages)] := by
  have hshape : ∃ st2, detect_stage s = { s with stage := some st2 } ∧
      route_after_detect { s with stage := some st2 } = "admin" := by
    rcases hs : s.stage with _ | st
    · refine ⟨"admin", ?_, route_after_detect_of_stage _ "admin" rfl (by decide)⟩
      unfold detect_stage
      rw [if_neg (by rintro ⟨hx, -⟩; rw [hs] at hx; exact Option.noConfusion hx), hs]
    · have hv := hinv st hs
      have hnd : st ≠ "demo" := by
        intro hx
        subst hx
        exact hv (by decide)
      by_cases hst : st = ""
      · subst hst
        refine ⟨"admin", ?_, route_after_detect_of_stage _ "admin" rfl (by decide)⟩
        unfold detect_stage
        rw [if_neg (by rintro ⟨hx, -⟩; rw [hs] at hx; exact absurd (Option.some.inj hx) (by decide)), hs]
        rfl
      · refine ⟨st, detect_stage_keep s st hs hst (by rintro ⟨hx, -⟩; exact hnd hx), ?_⟩
        unfold route_after_detect
        rw [show ({ s with stage := some st } : ConversationState).stage = some st from rfl]
        rw [show (some st).getD "admin" = st from rfl]
        rw [if_neg hv]
  obtain ⟨st2, hd, hroute⟩ := hshape
  obtain ⟨s2, hha, -, -, -, -, -, hs2ut, -⟩ :=
    handle_admin_spec beh { s with stage := some st2 } ar har
  have hra : route_after_admin s2 = "end" := route_after_admin_end s2 (by rw [hs2ut]; exact hsw)
  have hrun := runTurn_admin_end beh loads s _ s2 _ hd hroute hha hra
  refine ⟨?_, ?_⟩
  · rw [hd]
    exact hroute
  · rw [hrun]
    rfl

/-- C9 (witness): a corrupted stage value "garbage" routes to admin. -/
theorem c9_unknown_stage_defaults_admin_witness :
    route_after_detect (detect_stage { baseState with stage := some "garbage" }) = "admin" :=
  (c9_unknown_stage_defaults_admin { baseState with stage := some "garbage" }
    ⟨.ok okResult, .ok okResult, .ok okResult⟩ loadsNone okResult
    (by
      intro st h
      have hx := Option.some.inj h
      subst hx
      decide)
    rfl (by decide)).1
